import Mathlib

/-!
Verification development for the data-normalization layer of
`src/shelby_dashboard.py` (class `GoogleSheetsDataProcessor`).

The Python functions are shallowly embedded as Lean functions:

* spreadsheet cells are `String`s (the embedding treats strings as sequences of
  characters; the Python string predicates used by the source, `str.isdigit`
  and membership of `'.'`, are modelled character by character, with
  `Char.isDigit` playing the role of Python's digit test on the ASCII
  repertoire);
* Python `float` values are idealised as exact rationals `ℚ` (the source only
  parses decimal literals, adds, divides by constants and compares, so no
  claim below depends on binary rounding);
* Python `int` values produced by `int(...)` under an `isdigit` guard are
  nonnegative and unbounded, hence `Nat`;
* a Python function that can raise an uncaught exception is embedded with
  result type `Option _`, `none` meaning an exception escapes;
* `pandas.DataFrame` tables are embedded as lists of records (one structure
  per sheet).  The `pd.to_datetime(df['Date'], errors='coerce')` retyping of
  the `Date` column keeps every row and, where followed by `sort_values`
  (participation trends only), merely permutes rows; the records below keep
  the raw date string and the theorems are stated in permutation-invariant
  form (sums, counts, memberships) wherever that column conversion sits
  between the modelled list and the consumer;
* the one genuine use of ambient state, `datetime.now()` inside
  `process_acres_cleaned_timeline` (the three-year window filter
  `df[df['Date'] >= three_years_ago]`), is made explicit as a predicate
  parameter `in_window : String → Bool` standing for
  `pd.to_datetime(cell) >= datetime.now() - timedelta(days=3*365)`
  (false on unparseable dates, whose `NaT` compares false in pandas).
-/

namespace ShelbyDashboard

/-- Python's `cell if cell else ''` on a string cell: the empty string is the
only falsy string, so this is the identity on strings. -/
def py_or_empty (s : String) : String := if s.isEmpty then "" else s

/-- Python's `str.isdigit`: nonempty and every character a digit
(ASCII model, `Char.isDigit`). -/
def py_isdigit (s : String) : Bool := !s.isEmpty && s.data.all Char.isDigit

/-- Python's `s.replace('.', '')`: remove every occurrence of `'.'`. -/
def py_strip_dots (s : String) : String := ⟨s.data.filter (· != '.')⟩

/-- Decimal value of a digit string, most significant digit first. -/
def digits_to_nat (cs : List Char) : Nat := cs.foldl (fun a c => 10 * a + (c.toNat - 48)) 0

/-- Python's `int(s)` on a string that passed the `isdigit` guard: the decimal
value (always succeeds on such strings). -/
def py_int_of_digits (s : String) : Nat := digits_to_nat s.data

/-- The source's integer coercion pattern `int(cell) if cell.isdigit() else 0`
(lines 57-58, 99 of `shelby_dashboard.py`). Total: it never raises. -/
def coerce_int (s : String) : Nat := if py_isdigit s then py_int_of_digits s else 0

/-- Python's `float(s)`, modelled on the strings the source can feed it: it is
only called on strings whose dot-stripped form is a nonempty digit string,
i.e. strings made of digits and dots holding at least one digit.  CPython
accepts such a string exactly when it has at most one dot, and then its value
is `intpart.fracpart` read in decimal; every other guarded string (two or more
dots, e.g. `"1.2.3"`) raises `ValueError`, modelled as `none`. -/
def py_float (s : String) : Option ℚ :=
  let cs := s.data
  if (cs.all fun c => c.isDigit || c == '.') ∧ cs.any Char.isDigit ∧ cs.count '.' ≤ 1 then
    let ip := cs.takeWhile (· != '.')
    let fp := (cs.dropWhile (· != '.')).drop 1
    some ((digits_to_nat ip : ℚ) + (digits_to_nat fp : ℚ) / (10 : ℚ) ^ fp.length)
  else
    none

/-- The guard `cell.replace('.', '').isdigit()` used before every `float(...)`
call in the source (lines 80-81, 100, 132, 184). -/
def float_guard (s : String) : Bool := py_isdigit (py_strip_dots s)

/-- The source's float coercion pattern
`float(cell) if cell.replace('.', '').isdigit() else 0`.  When the guard
fails, `float` is not called and the value is `0`; when the guard passes,
`float(cell)` itself may still raise (`none`). -/
def coerce_float (s : String) : Option ℚ := if float_guard s then py_float s else some 0

/-- Record of the `Volunteer Participation Trends` table: columns `Date`,
`Event Name`, `Participant Count`, `Total Count` (lines 54-59). -/
structure TrendRow where
  date : String
  event_name : String
  participant_count : Nat
  total_count : Nat
deriving Repr, DecidableEq

/-- Record of the `Volunteer Satisfaction` table: columns `Date`, `Event Name`,
`Satisfaction Score`, `Overall Average` (lines 77-82). -/
structure SatRow where
  date : String
  event_name : String
  satisfaction_score : ℚ
  overall_average : ℚ
deriving Repr, DecidableEq

/-- Record of the `Most Popular Events` table: columns `Event Name`,
`Total Participants`, `Percentage Share` (lines 97-101). -/
structure EventRow where
  event_name : String
  total_participants : Nat
  percentage_share : ℚ
deriving Repr, DecidableEq

/-- Record of the `Acres Cleaned Timeline` table: columns `Date`,
`Acres Cleaned`, `Cumulative Total` (lines 134-138). -/
structure AcresRow where
  date : String
  acres_cleaned : ℚ
  cumulative_total : ℚ
deriving Repr, DecidableEq

/-- Record of the `Survey Response Details` table (lines 157-164). -/
structure SurveyRow where
  date : String
  respondent_id : String
  organization : String
  barrier_statements : String
  park_visit_details : String
  accessibility_comments : String
deriving Repr, DecidableEq

/-- Record of the `Barrier Ratings Over Time` table: columns `Date`,
`Organization`, `Rating` (lines 181-185). -/
structure RatingRow where
  date : String
  organization : String
  rating : ℚ
deriving Repr, DecidableEq

/-- Outcome of processing one raw data row inside a per-row loop: the row is
too narrow and is skipped, or it is coerced into a record, or a coercion
raises an exception. -/
inductive RowStep (α : Type) where
  | raise : RowStep α
  | skip : RowStep α
  | keep : α → RowStep α
deriving Repr, DecidableEq

/-- The per-row loop `for i in range(1, len(raw_data)): ...` applied to the
data rows: appends kept records in order, and an exception in any row aborts
the whole function (`none`). -/
def rows_of {α : Type} (f : List String → RowStep α) : List (List String) → Option (List α)
  | [] => some []
  | row :: rest =>
    match f row with
    | .raise => none
    | .skip => rows_of f rest
    | .keep a => (rows_of f rest).map (a :: ·)

/-- One row of the participation loop (lines 52-59): rows with fewer than 4
cells are skipped, others are coerced.  Both numeric cells use the total
`isdigit` guard, so this never raises. -/
def trend_row (row : List String) : Option TrendRow :=
  match row with
  | a :: b :: c :: d :: _ => some ⟨py_or_empty a, py_or_empty b, coerce_int c, coerce_int d⟩
  | _ => none

/-- Lines 44-65, `process_volunteer_participation_trends`, as a function of
the fetched raw rows.  Lines 62-64 retype the `Date` column and sort rows by
it; that step drops no row and adds none, so the record list here is kept in
sheet order and every theorem about this table below is stated in a
permutation-invariant form (sums and counts). -/
def process_volunteer_participation_trends (raw : List (List String)) : List TrendRow :=
  if raw.length ≤ 1 then [] else (raw.drop 1).filterMap trend_row

/-- One row of the satisfaction loop (lines 75-82): width-4 guard, two
float-guarded cells. -/
def sat_row (row : List String) : RowStep SatRow :=
  match row with
  | a :: b :: c :: d :: _ =>
    match coerce_float c, coerce_float d with
    | some sc, some oa => .keep ⟨py_or_empty a, py_or_empty b, sc, oa⟩
    | _, _ => .raise
  | _ => .skip

/-- Lines 67-87, `process_volunteer_satisfaction`, as a function of the
fetched raw rows (the line 86 `Date` retyping keeps every row in place). -/
def process_volunteer_satisfaction (raw : List (List String)) : Option (List SatRow) :=
  if raw.length ≤ 1 then some [] else rows_of sat_row (raw.drop 1)

/-- One row of the direct popular-events loop (lines 95-101): width-3 guard,
an `isdigit`-guarded int cell and a float-guarded cell. -/
def event_row (row : List String) : RowStep EventRow :=
  match row with
  | a :: b :: c :: _ =>
    match coerce_float c with
    | some ps => .keep ⟨py_or_empty a, coerce_int b, ps⟩
    | none => .raise
  | _ => .skip

/-- Insert an event name into a sorted duplicate-free list of names, the
order `pandas.groupby` presents its keys in (ascending code-point order). -/
def insert_name_sorted (x : String) : List String → List String
  | [] => [x]
  | y :: ys =>
    if x < y then x :: y :: ys else if x = y then y :: ys else y :: insert_name_sorted x ys

/-- Keys of `participation_df.groupby('Event Name')` (line 109): the distinct
event names in ascending order (a set, hence independent of the date-sorted
row order of the participation table). -/
def group_keys (recs : List TrendRow) : List String :=
  recs.foldl (fun acc r => insert_name_sorted r.event_name acc) []

/-- Per-group sum `groupby('Event Name')['Participant Count'].sum()`
(line 109), order-invariant. -/
def group_sum (recs : List TrendRow) (name : String) : Nat :=
  ((recs.filter fun r => r.event_name == name).map TrendRow.participant_count).sum

/-- Floor of a rational as an integer (Euclidean division of the numerator by
the positive denominator). -/
def rat_floor (q : ℚ) : ℤ := q.num.ediv (q.den : ℤ)

/-- Round to the nearest integer, ties to even — the rounding used by
`pandas`/`numpy` `.round` (line 113), idealised to exact rationals. -/
def round_half_even (q : ℚ) : ℤ :=
  if q - rat_floor q = (1 : ℚ) / 2 then
    (if rat_floor q % 2 = 0 then rat_floor q else rat_floor q + 1)
  else rat_floor (q + 1 / 2)

/-- The `.round(2)` of line 113. -/
def round2 (q : ℚ) : ℚ := (round_half_even (q * 100) : ℚ) / 100

/-- Stable insertion for a descending sort by `Total Participants`: an
element is placed before every later element of equal or smaller count. -/
def insert_desc_by_count (x : EventRow) : List EventRow → List EventRow
  | [] => [x]
  | y :: ys =>
    if y.total_participants ≤ x.total_participants then x :: y :: ys
    else y :: insert_desc_by_count x ys

/-- Descending stable sort by count; `nlargest(3, ...)` (line 117, default
`keep='first'`) is this sort followed by `take 3`. -/
def sort_desc_by_count (l : List EventRow) : List EventRow := l.foldr insert_desc_by_count []

/-- Lines 89-119, `process_most_popular_events`, as a function of its own
fetched raw rows and of the participation sheet's raw rows (the fallback
branch of lines 104-119 re-fetches and processes the latter). -/
def process_most_popular_events (raw participation_raw : List (List String)) :
    Option (List EventRow) :=
  if 1 < raw.length then rows_of event_row (raw.drop 1)
  else
    let p := process_volunteer_participation_trends participation_raw
    if p.isEmpty then some []
    else
      let keys := group_keys p
      let counts := keys.map fun n => (n, group_sum p n)
      let total := (counts.map Prod.snd).sum
      let recs := counts.map fun nc =>
        (⟨nc.1, nc.2, if 0 < total then round2 ((nc.2 : ℚ) / (total : ℚ) * 100) else 0⟩ : EventRow)
      some ((sort_desc_by_count recs).take 3)

/-- The accumulator loop of lines 127-138: running `cumulative_total` over the
width-2 data rows, the float guard of line 132 able to raise. -/
def acres_rows : ℚ → List (List String) → Option (List AcresRow)
  | _, [] => some []
  | acc, row :: rest =>
    match row with
    | a :: b :: _ =>
      match coerce_float b with
      | none => none
      | some v => (acres_rows (acc + v) rest).map (fun tl => ⟨py_or_empty a, v, acc + v⟩ :: tl)
    | _ => acres_rows acc rest

/-- Lines 121-145, `process_acres_cleaned_timeline`.  The parameter
`in_window` stands for the ambient-time predicate of lines 142-144,
`pd.to_datetime(cell) >= datetime.now() - timedelta(days=3*365)` (false when
the date fails to parse, since `NaT` comparisons are false): the returned
table is the record list filtered by it. -/
def process_acres_cleaned_timeline (in_window : String → Bool) (raw : List (List String)) :
    Option (List AcresRow) :=
  if raw.length ≤ 1 then some []
  else (acres_rows 0 (raw.drop 1)).map (fun recs => recs.filter fun r => in_window r.date)

/-- One row of the survey loop (lines 155-164): width-6 guard, all cells kept
as strings; never raises. -/
def survey_row (row : List String) : Option SurveyRow :=
  match row with
  | a :: b :: c :: d :: e :: f :: _ =>
    some ⟨py_or_empty a, py_or_empty b, py_or_empty c, py_or_empty d, py_or_empty e, py_or_empty f⟩
  | _ => none

/-- Lines 147-169, `process_survey_response_details` (the line 168 `Date`
retyping keeps every row in place). -/
def process_survey_response_details (raw : List (List String)) : List SurveyRow :=
  if raw.length ≤ 1 then [] else (raw.drop 1).filterMap survey_row

/-- One row of the barrier-ratings loop (lines 178-185): width-3 guard, one
float-guarded cell. -/
def rating_row (row : List String) : RowStep RatingRow :=
  match row with
  | a :: b :: c :: _ =>
    match coerce_float c with
    | some r => .keep ⟨py_or_empty a, py_or_empty b, r⟩
    | none => .raise
  | _ => .skip

/-- Lines 171-190, `process_barrier_ratings`. -/
def process_barrier_ratings (raw : List (List String)) : Option (List RatingRow) :=
  if raw.length ≤ 1 then some [] else rows_of rating_row (raw.drop 1)

/-- Python's `str.lower`, ASCII model. -/
def py_lower (s : String) : String := ⟨s.data.map Char.toLower⟩

/-- Whether `pat` is an initial segment of `l`. -/
def chars_lead : List Char → List Char → Bool
  | [], _ => true
  | _ :: _, [] => false
  | c :: cs, d :: ds => c == d && chars_lead cs ds

/-- Whether `pat` occurs contiguously inside `l` — Python's `pat in l` on
strings. -/
def chars_contain : List Char → List Char → Bool
  | pat, [] => pat.isEmpty
  | pat, c :: rest => chars_lead pat (c :: rest) || chars_contain pat rest

/-- The line 213 test `x and 'yes' in x.lower()` on a `Barrier Statements`
cell (nonempty string containing `yes` case-insensitively). -/
def has_yes_barrier (r : SurveyRow) : Bool :=
  !r.barrier_statements.isEmpty && chars_contain "yes".data (py_lower r.barrier_statements).data

/-- The metrics dict of `calculate_dashboard_metrics` (lines 192-216).  Each
Python key is a field; `none` models the key being absent from the dict
(each block of the source only sets its keys when its table is nonempty). -/
structure Metrics where
  total_volunteers : Option Nat
  total_hours : Option Nat
  value_of_hours : Option ℚ
  total_acres_cleaned : Option ℚ
  percent_forest_reached : Option ℚ
  total_survey_responses : Option Nat
  percent_facing_barriers : Option ℚ
deriving Repr, DecidableEq

/-- The pure part of `calculate_dashboard_metrics`, given the three processed
tables.  `132 / 10` is the `$13.2/hour` of line 201; `min 100 (t / 4000 *
100)` is line 207; the barrier percentage is lines 213-214. -/
def metrics_of (p : List TrendRow) (a : List AcresRow) (s : List SurveyRow) : Metrics :=
  let tv : Option Nat := if p.isEmpty then none else some ((p.map TrendRow.participant_count).sum)
  let th : Option Nat := if p.isEmpty then none else some ((p.map TrendRow.total_count).sum)
  let vh : Option ℚ := th.map fun h => (h : ℚ) * (132 / 10)
  let tac : Option ℚ :=
    if a.isEmpty then none else some (((a.getLast?).map AcresRow.cumulative_total).getD 0)
  let pfr : Option ℚ := tac.map fun t => min 100 (t / 4000 * 100)
  let tsr : Option Nat := if s.isEmpty then none else some s.length
  let pfb : Option ℚ :=
    if s.isEmpty then none
    else
      some (if 0 < s.length then ((s.filter has_yes_barrier).length : ℚ) / (s.length : ℚ) * 100
            else 0)
  ⟨tv, th, vh, tac, pfr, tsr, pfb⟩

/-- Lines 192-216, `calculate_dashboard_metrics`.  Of the three process
functions it calls, only `process_acres_cleaned_timeline` can raise (the
participation and survey loops are total), so the whole function raises
exactly when that call does. -/
def calculate_dashboard_metrics (in_window : String → Bool)
    (participation_raw acres_raw survey_raw : List (List String)) : Option Metrics :=
  match process_acres_cleaned_timeline in_window acres_raw with
  | none => none
  | some a =>
    some (metrics_of (process_volunteer_participation_trends participation_raw) a
      (process_survey_response_details survey_raw))

/-- Body of the HTTP response to the sheet fetch, as far as line 26-27 of the
source inspect it: either the body is not valid JSON (so `response.json()`
raises, caught by the `except` of line 28), or it is a JSON object whose
fields of interest map names to lists of rows of strings (the shape the
Sheets `values` endpoint returns). -/
inductive SheetJson where
  | malformed : SheetJson
  | obj : List (String × List (List String)) → SheetJson
deriving Repr, DecidableEq

/-- Outcome of `requests.get` (line 24): the request itself raised (network
error), or an HTTP response with a status code and a body arrived. -/
inductive FetchOutcome where
  | exn : FetchOutcome
  | resp : Nat → SheetJson → FetchOutcome
deriving Repr, DecidableEq

/-- Whether `response.raise_for_status()` (line 25) raises: `requests` raises
`HTTPError` exactly for status codes 400-599 (client and server errors), not
for every non-200 code. -/
def raise_for_status (status : Nat) : Bool := decide (400 ≤ status ∧ status < 600)

/-- Lines 19-30, `fetch_sheet_data`: every exception in the `try` block is
caught and converted to `[]`; otherwise the result is
`data.get('values', [])`. -/
def fetch_sheet_data : FetchOutcome → List (List String)
  | .exn => []
  | .resp status body =>
    if raise_for_status status then []
    else
      match body with
      | .malformed => []
      | .obj fields => (fields.lookup "values").getD []

/-! Helper lemmas about the per-row loops. -/

/-- Projection of a `filterMap` loop: when `f` keeps exactly the rows
satisfying `p` and the projection of a kept record is `g` of its row, the
projected output is `g` mapped over the kept rows, in order. -/
theorem filterMap_proj {α β : Type} (f : List String → Option α) (p : List String → Bool)
    (proj : α → β) (g : List String → β)
    (hf : ∀ row, (f row).isSome = p row)
    (hproj : ∀ row a, f row = some a → proj a = g row) :
    ∀ rows : List (List String), (rows.filterMap f).map proj = (rows.filter p).map g := by
  intro rows
  induction rows with
  | nil => rfl
  | cons row rest ih =>
    cases hfr : f row with
    | none =>
      have hp : p row = false := by rw [← hf row, hfr]; rfl
      simp only [List.filterMap_cons, hfr, List.filter_cons, hp, ih, Bool.false_eq_true,
        if_false]
    | some a =>
      have hp : p row = true := by rw [← hf row, hfr]; rfl
      simp only [List.filterMap_cons, hfr, List.filter_cons, hp, if_true, List.map_cons, ih,
        hproj row a hfr]

/-- Length of a `filterMap` loop: the number of records equals the number of
rows kept by the width test. -/
theorem filterMap_len {α : Type} (f : List String → Option α) (p : List String → Bool)
    (hf : ∀ row, (f row).isSome = p row) :
    ∀ rows : List (List String), (rows.filterMap f).length = (rows.filter p).length := by
  intro rows
  have h := filterMap_proj f p (fun _ => ()) (fun _ => ()) hf (fun _ _ _ => rfl) rows
  calc (rows.filterMap f).length = ((rows.filterMap f).map (fun _ => ())).length :=
        (List.length_map _ _).symm
    _ = ((rows.filter p).map (fun _ => ())).length := by rw [h]
    _ = (rows.filter p).length := List.length_map _ _

/-- Projection of a `rows_of` loop that returned without raising. -/
theorem rows_of_proj {α β : Type} (f : List String → RowStep α) (p : List String → Bool)
    (proj : α → β) (g : List String → β)
    (hskip : ∀ row, f row = .skip ↔ p row = false)
    (hkeep : ∀ row a, f row = .keep a → proj a = g row) :
    ∀ (rows : List (List String)) (recs : List α), rows_of f rows = some recs → recs.map proj = (rows.filter p).map g := by
  intro rows
  induction rows with
  | nil =>
    intro recs h
    obtain rfl : ([] : List α) = recs := Option.some.inj h
    rfl
  | cons row rest ih =>
    intro recs h
    cases hfr : f row with
    | raise => rw [rows_of, hfr] at h; cases h
    | skip =>
      rw [rows_of, hfr] at h
      have hp := (hskip row).mp hfr
      simp only [List.filter_cons, hp, Bool.false_eq_true, if_false]
      exact ih recs h
    | keep a =>
      rw [rows_of, hfr] at h
      cases hrr : rows_of f rest with
      | none => rw [hrr] at h; cases h
      | some tl =>
        rw [hrr] at h
        obtain rfl : a :: tl = recs := Option.some.inj h
        have hp : p row = true := by
          cases hpv : p row
          · exact absurd ((hskip row).mpr hpv) (by simp [hfr])
          · rfl
        simp only [List.filter_cons, hp, if_true, List.map_cons, hkeep row a hfr, ih tl hrr]

/-- Length of a `rows_of` loop that returned without raising. -/
theorem rows_of_len {α : Type} (f : List String → RowStep α) (p : List String → Bool)
    (hskip : ∀ row, f row = .skip ↔ p row = false)
    (rows : List (List String)) (recs : List α) (h : rows_of f rows = some recs) :
    recs.length = (rows.filter p).length := by
  have hm := rows_of_proj f p (fun _ => ()) (fun _ => ()) hskip (fun _ _ _ => rfl) rows recs h
  calc recs.length = (recs.map (fun _ => ())).length := (List.length_map _ _).symm
    _ = ((rows.filter p).map (fun _ => ())).length := by rw [hm]
    _ = (rows.filter p).length := List.length_map _ _

/-- Width semantics of the participation row coercion. -/
theorem trend_row_isSome (row : List String) :
    (trend_row row).isSome = decide (4 ≤ row.length) := by
  rcases row with _ | ⟨a, _ | ⟨b, _ | ⟨c, _ | ⟨d, rest⟩⟩⟩⟩ <;>
    simp [trend_row, Nat.le_add_left]

/-- Width semantics of the survey row coercion. -/
theorem survey_row_isSome (row : List String) :
    (survey_row row).isSome = decide (6 ≤ row.length) := by
  rcases row with _ | ⟨a, _ | ⟨b, _ | ⟨c, _ | ⟨d, _ | ⟨e, _ | ⟨f, rest⟩⟩⟩⟩⟩⟩ <;>
    simp [survey_row, Nat.le_add_left]

/-- Width semantics of the satisfaction row step: a row is skipped exactly
when it has fewer than 4 cells. -/
theorem sat_row_skip_iff (row : List String) :
    sat_row row = .skip ↔ decide (4 ≤ row.length) = false := by
  rcases row with _ | ⟨a, _ | ⟨b, _ | ⟨c, _ | ⟨d, rest⟩⟩⟩⟩ <;>
    simp [sat_row, Nat.le_add_left]
  rcases hc : coerce_float c with _ | sc <;> rcases hd : coerce_float d with _ | oa <;> simp

/-- Width semantics of the barrier-rating row step. -/
theorem rating_row_skip_iff (row : List String) :
    rating_row row = .skip ↔ decide (3 ≤ row.length) = false := by
  rcases row with _ | ⟨a, _ | ⟨b, _ | ⟨c, rest⟩⟩⟩ <;>
    simp [rating_row, Nat.le_add_left]
  rcases hc : coerce_float c with _ | r <;> simp

/-- Width semantics of the direct popular-events row step. -/
theorem event_row_skip_iff (row : List String) :
    event_row row = .skip ↔ decide (3 ≤ row.length) = false := by
  rcases row with _ | ⟨a, _ | ⟨b, _ | ⟨c, rest⟩⟩⟩ <;>
    simp [event_row, Nat.le_add_left]
  rcases hc : coerce_float c with _ | ps <;> simp

/-- Cumulative-total invariant of the acres loop: when the loop finishes
without raising, the `Cumulative Total` of the record at position `i` is the
starting accumulator plus the sum of the `Acres Cleaned` values of the first
`i + 1` records. -/
theorem acres_rows_cumulative :
    ∀ (rows : List (List String)) (acc : ℚ) (base : List AcresRow),
      acres_rows acc rows = some base →
      ∀ (i : Nat) (r : AcresRow), base.get? i = some r →
        r.cumulative_total = acc + ((base.take (i + 1)).map AcresRow.acres_cleaned).sum := by
  intro rows
  induction rows with
  | nil =>
    intro acc base h i r hr
    obtain rfl : ([] : List AcresRow) = base := Option.some.inj h
    cases hr
  | cons row rest ih =>
    intro acc base h i r hr
    rcases row with _ | ⟨a, _ | ⟨b, rest2⟩⟩
    · exact ih acc base h i r hr
    · exact ih acc base h i r hr
    · rw [acres_rows] at h
      cases hc : coerce_float b with
      | none => rw [hc] at h; exact absurd h (by simp)
      | some v =>
        rw [hc] at h
        dsimp only at h
        cases hrr : acres_rows (acc + v) rest with
        | none => rw [hrr] at h; simp at h
        | some tl =>
          rw [hrr] at h
          simp only [Option.map_some'] at h
          obtain rfl : (⟨py_or_empty a, v, acc + v⟩ : AcresRow) :: tl = base :=
            Option.some.inj h
          cases i with
          | zero =>
            obtain rfl : (⟨py_or_empty a, v, acc + v⟩ : AcresRow) = r := Option.some.inj hr
            simp
          | succ j =>
            have hj : tl.get? j = some r := hr
            have := ih (acc + v) tl hrr j r hj
            simp only [List.take_succ_cons, List.map_cons, List.sum_cons]
            rw [this]; ring

/-- Length invariant of the acres loop: one record per row with at least two
cells. -/
theorem acres_rows_len :
    ∀ (rows : List (List String)) (acc : ℚ) (base : List AcresRow),
      acres_rows acc rows = some base →
      base.length = (rows.filter fun row => decide (2 ≤ row.length)).length := by
  intro rows
  induction rows with
  | nil =>
    intro acc base h
    obtain rfl : ([] : List AcresRow) = base := Option.some.inj h
    rfl
  | cons row rest ih =>
    intro acc base h
    rcases row with _ | ⟨a, _ | ⟨b, rest2⟩⟩
    · simpa using ih acc base h
    · simpa using ih acc base h
    · rw [acres_rows] at h
      cases hc : coerce_float b with
      | none => rw [hc] at h; exact absurd h (by simp)
      | some v =>
        rw [hc] at h
        dsimp only at h
        cases hrr : acres_rows (acc + v) rest with
        | none => rw [hrr] at h; simp at h
        | some tl =>
          rw [hrr] at h
          simp only [Option.map_some'] at h
          obtain rfl : (⟨py_or_empty a, v, acc + v⟩ : AcresRow) :: tl = base :=
            Option.some.inj h
          have hlen : (2 ≤ (a :: b :: rest2).length) := by simp [Nat.le_add_left]
          simp [List.filter_cons, hlen, ih (acc + v) tl hrr]

/-- Whether the acres loop raises does not depend on the accumulator. -/
theorem acres_rows_isSome :
    ∀ (rows : List (List String)) (acc acc' : ℚ),
      (acres_rows acc rows).isSome = (acres_rows acc' rows).isSome := by
  intro rows
  induction rows with
  | nil => intro acc acc'; rfl
  | cons row rest ih =>
    intro acc acc'
    rcases row with _ | ⟨a, _ | ⟨b, rest2⟩⟩
    · exact ih acc acc'
    · exact ih acc acc'
    · rw [acres_rows, acres_rows]
      cases hc : coerce_float b with
      | none => rfl
      | some v =>
        dsimp only
        have hih := ih (acc + v) (acc' + v)
        cases h1 : acres_rows (acc + v) rest <;> cases h2 : acres_rows (acc' + v) rest <;>
          rw [h1, h2] at hih <;> simp_all

/-! Claim C1.  The claim says no processing function ever raises on string
cells.  The guard `cell.replace('.', '').isdigit()` accepts `"1.2.3"`
(stripping dots leaves `"123"`), yet `float("1.2.3")` raises `ValueError`,
which nothing in `process_volunteer_satisfaction` catches; the same trap sits
in `process_most_popular_events`, `process_acres_cleaned_timeline` and
`process_barrier_ratings`.  The function's own design (guard-then-default on
every cell) shows the intent was never to raise, so this is a slip in the
code. -/

/-- C1: evaluating the embedded `process_volunteer_satisfaction` at the
failing input: a well-shaped sheet whose `Satisfaction Score` cell is
`"1.2.3"` makes the function raise (`none`) instead of coercing the cell
to the default `0`. -/
theorem C1_satisfaction_raises_on_guarded_multidot_cell :
    process_volunteer_satisfaction
      [["Date", "Event Name", "Satisfaction Score", "Overall Average"],
       ["2024-01-01", "Cleanup", "1.2.3", "4.0"]] = none := by
  decide

/-! Claim C5.  `fetch_sheet_data` indeed returns the `values` field, and
`[]` on exceptions and missing fields — but `raise_for_status` only raises
for status codes 400-599, so a non-200 success code (e.g. 201) — or an
out-of-range status of 600 or more — with a valid body is *not* converted to
`[]`: its `values` rows are returned. -/

/-- C5 counterexample: a response with the non-200 status 201 and a JSON body
holding a `values` field does not yield the empty list, contradicting the
claim that any non-200 status yields `[]`. -/
theorem C5_counterexample_non200_status_returns_rows :
    fetch_sheet_data (FetchOutcome.resp 201 (SheetJson.obj [("values", [["a"]])])) ≠ [] := by
  decide

/-- C5 amended: `fetch_sheet_data` returns exactly the rows of the `values`
field of the JSON response; and it returns `[]` when the response has no
`values` field, or the request raises, or the body is not valid JSON, or the
status code lies in 400-599 (`raise_for_status` raises `HTTPError` exactly
for 4xx/5xx — neither for a non-200 success code such as 201 nor for an
out-of-range status of 600 or more, both of which still return their
rows). -/
theorem C5_fetch_sheet_data_amended :
    (∀ (status : Nat) (fields : List (String × List (List String)))
        (rows : List (List String)),
        status < 400 ∨ 600 ≤ status → fields.lookup "values" = some rows →
        fetch_sheet_data (.resp status (.obj fields)) = rows)
    ∧ (∀ (status : Nat) (fields : List (String × List (List String))),
        status < 400 ∨ 600 ≤ status → fields.lookup "values" = none →
        fetch_sheet_data (.resp status (.obj fields)) = [])
    ∧ (∀ (status : Nat) (body : SheetJson), 400 ≤ status → status < 600 →
        fetch_sheet_data (.resp status body) = [])
    ∧ (∀ status : Nat, fetch_sheet_data (.resp status .malformed) = [])
    ∧ fetch_sheet_data .exn = [] := by
  refine ⟨?_, ?_, ?_, ?_, rfl⟩
  · intro status fields rows hs hv
    have hrs : raise_for_status status = false := by
      simp only [raise_for_status, decide_eq_false_iff_not]
      omega
    simp [fetch_sheet_data, hrs, hv]
  · intro status fields hs hv
    have hrs : raise_for_status status = false := by
      simp only [raise_for_status, decide_eq_false_iff_not]
      omega
    simp [fetch_sheet_data, hrs, hv]
  · intro status body hs1 hs2
    have hrs : raise_for_status status = true := by
      simp only [raise_for_status, decide_eq_true_eq]
      omega
    simp [fetch_sheet_data, hrs]
  · intro status
    cases h : raise_for_status status <;> simp [fetch_sheet_data, h]

/-- C5 witness: the amended theorem applied to a concrete 200 response whose
body holds a `values` field. -/
theorem C5_fetch_sheet_data_amended_witness :
    ((200 : Nat) < 400 ∨ 600 ≤ (200 : Nat))
    ∧ List.lookup "values" [("values", [["a", "b"]])] = some [["a", "b"]]
    ∧ fetch_sheet_data (.resp 200 (.obj [("values", [["a", "b"]])])) = [["a", "b"]] :=
  ⟨by decide, by decide,
    C5_fetch_sheet_data_amended.1 200 [("values", [["a", "b"]])] [["a", "b"]]
      (by decide) (by decide)⟩

/-! Claim C4.  When every fetch fails each processing function does return
its empty table — but `calculate_dashboard_metrics` then returns an *empty*
dict (every `metrics[...] = ...` assignment sits under an
`if not ..._df.empty` guard), not a dict of zero/default values; the callers
substitute their own sample-number defaults via `metrics.get(...)`. -/

/-- C4 counterexample: with all three fetches failed (empty raw lists) the
metrics mapping holds no keys at all — in particular `total_volunteers` is
absent rather than the zero/default value the claim promises. -/
theorem C4_counterexample_metrics_keys_absent :
    calculate_dashboard_metrics (fun _ => true) [] [] []
        = some (Metrics.mk none none none none none none none)
    ∧ (Metrics.mk none none none none none none none).total_volunteers ≠ some 0 := by
  exact ⟨rfl, by decide⟩

/-- C4 amended: whenever a sheet's fetch fails it returns `[]`, and on `[]`
every processing function returns its empty table without propagating any
error; `calculate_dashboard_metrics` likewise returns normally, but with a
metrics dict that simply omits the affected keys (so callers fall back to
their own defaults) rather than one holding zero values. -/
theorem C4_empty_fetch_amended (in_window : String → Bool) :
    process_volunteer_participation_trends [] = []
    ∧ process_volunteer_satisfaction [] = some []
    ∧ process_most_popular_events [] [] = some []
    ∧ process_acres_cleaned_timeline in_window [] = some []
    ∧ process_survey_response_details [] = []
    ∧ process_barrier_ratings [] = some []
    ∧ calculate_dashboard_metrics in_window [] [] []
        = some (Metrics.mk none none none none none none none) :=
  ⟨rfl, rfl, rfl, rfl, rfl, rfl, rfl⟩

/-- C4 witness: the amended theorem at a concrete (all-true) window
predicate. -/
theorem C4_empty_fetch_amended_witness :
    process_volunteer_participation_trends [] = []
    ∧ process_volunteer_satisfaction [] = some []
    ∧ process_most_popular_events [] [] = some []
    ∧ process_acres_cleaned_timeline (fun _ => true) [] = some []
    ∧ process_survey_response_details [] = []
    ∧ process_barrier_ratings [] = some []
    ∧ calculate_dashboard_metrics (fun _ => true) [] [] []
        = some (Metrics.mk none none none none none none none) :=
  C4_empty_fetch_amended (fun _ => true)

/-! Claim C6.  The first fetched row is indeed treated as a header by every
processing function (replacing it never changes any output).  The
at-most-one-row/empty-table law holds for five of the six functions, but not
for `process_most_popular_events`: on an at-most-one-row sheet it falls back
to the table computed from the participation sheet (lines 103-119), which can
be nonempty. -/

/-- C6 counterexample: the popular-events sheet fetch returned `[]` (at most
one row), yet the function's output is not the empty table — it is the
fallback table derived from the participation sheet. -/
theorem C6_counterexample_popular_fallback_not_empty :
    process_most_popular_events [] [["a", "b", "c", "d"], ["d", "E", "5", "6"]] ≠ some [] := by
  decide

/-- C6 amended: replacing the header row of any fetched sheet never changes
the output of any processing function (for `process_most_popular_events`,
this holds for both the sheet it fetches and the participation sheet its
fallback fetches); and an input with at most one row yields the empty table
for the five functions other than `process_most_popular_events`, which
instead ignores its own sheet entirely and computes the fallback table. -/
theorem C6_header_and_empty_amended :
    (∀ (h₁ h₂ : List String) (t : List (List String)),
      process_volunteer_participation_trends (h₁ :: t)
        = process_volunteer_participation_trends (h₂ :: t))
    ∧ (∀ (h₁ h₂ : List String) (t : List (List String)),
      process_volunteer_satisfaction (h₁ :: t) = process_volunteer_satisfaction (h₂ :: t))
    ∧ (∀ (in_window : String → Bool) (h₁ h₂ : List String) (t : List (List String)),
      process_acres_cleaned_timeline in_window (h₁ :: t)
        = process_acres_cleaned_timeline in_window (h₂ :: t))
    ∧ (∀ (h₁ h₂ : List String) (t : List (List String)),
      process_survey_response_details (h₁ :: t) = process_survey_response_details (h₂ :: t))
    ∧ (∀ (h₁ h₂ : List String) (t : List (List String)),
      process_barrier_ratings (h₁ :: t) = process_barrier_ratings (h₂ :: t))
    ∧ (∀ (h₁ h₂ : List String) (t pr : List (List String)),
      process_most_popular_events (h₁ :: t) pr = process_most_popular_events (h₂ :: t) pr)
    ∧ (∀ (pr : List (List String)) (h₁ h₂ : List String) (u : List (List String)),
      process_most_popular_events pr (h₁ :: u) = process_most_popular_events pr (h₂ :: u))
    ∧ (∀ (in_window : String → Bool) (raw : List (List String)), raw.length ≤ 1 →
      process_volunteer_participation_trends raw = []
      ∧ process_volunteer_satisfaction raw = some []
      ∧ process_acres_cleaned_timeline in_window raw = some []
      ∧ process_survey_response_details raw = []
      ∧ process_barrier_ratings raw = some [])
    ∧ (∀ (raw pr : List (List String)), raw.length ≤ 1 →
      process_most_popular_events raw pr = process_most_popular_events [] pr) := by
  refine ⟨fun _ _ _ => rfl, fun _ _ _ => rfl, fun _ _ _ _ => rfl, fun _ _ _ => rfl,
    fun _ _ _ => rfl, fun _ _ _ _ => rfl, ?_, ?_, ?_⟩
  · intro pr h₁ h₂ u
    have ht : process_volunteer_participation_trends (h₁ :: u)
        = process_volunteer_participation_trends (h₂ :: u) := rfl
    simp only [process_most_popular_events, ht]
  · intro in_window raw h
    refine ⟨?_, ?_, ?_, ?_, ?_⟩ <;>
      simp [process_volunteer_participation_trends, process_volunteer_satisfaction,
        process_acres_cleaned_timeline, process_survey_response_details,
        process_barrier_ratings, h]
  · intro raw pr h
    have h2 : ¬ 1 < raw.length := by omega
    have h3 : ¬ 1 < ([] : List (List String)).length := by simp
    rw [process_most_popular_events, if_neg h2, process_most_popular_events, if_neg h3]

/-- C6 witness: the amended theorem's at-most-one-row law applied to a
one-row (header-only) input. -/
theorem C6_header_and_empty_amended_witness :
    ([["only", "header"]] : List (List String)).length ≤ 1
    ∧ (process_volunteer_participation_trends [["only", "header"]] = []
      ∧ process_volunteer_satisfaction [["only", "header"]] = some []
      ∧ process_acres_cleaned_timeline (fun _ => true) [["only", "header"]] = some []
      ∧ process_survey_response_details [["only", "header"]] = []
      ∧ process_barrier_ratings [["only", "header"]] = some []) :=
  ⟨by decide,
    C6_header_and_empty_amended.2.2.2.2.2.2.2.1 (fun _ => true) [["only", "header"]]
      (by decide)⟩

/-! Claim C10.  Narrow rows are indeed silently skipped, and for four of the
six functions (and the direct branch of `process_most_popular_events`) the
record count equals the number of sufficiently wide data rows.  It fails in
general for the two other paths: the acres table is additionally filtered by
the three-year date window, and the popular-events fallback derives its rows
from the participation sheet rather than its own. -/

/-- C10 counterexample: the popular-events sheet fetch returned `[]`, which
has zero data rows of width at least 3, yet the returned table (computed by
the participation fallback) has one record. -/
theorem C10_counterexample_popular_fallback_count :
    ((process_most_popular_events [] [["a", "b", "c", "d"], ["d", "E", "5", "6"]]).getD
        []).length
      ≠ ((([] : List (List String)).drop 1).filter fun r => decide (3 ≤ r.length)).length := by
  decide

/-- C10 amended: for participation (width 4), satisfaction (width 4), survey
details (width 6), barrier ratings (width 3) and the direct branch of popular
events (width 3), the number of records equals the number of data rows
meeting the width requirement; for the acres table (width 2) this holds for
the pre-window record list — equivalently whenever every date passes the
three-year window — while the popular-events fallback branch derives its
rows from the participation sheet instead. -/
theorem C10_width_filter_amended :
    (∀ raw : List (List String), 1 < raw.length →
      (process_volunteer_participation_trends raw).length
        = ((raw.drop 1).filter fun r => decide (4 ≤ r.length)).length)
    ∧ (∀ (raw : List (List String)) (recs : List SatRow),
        process_volunteer_satisfaction raw = some recs → 1 < raw.length →
        recs.length = ((raw.drop 1).filter fun r => decide (4 ≤ r.length)).length)
    ∧ (∀ raw : List (List String), 1 < raw.length →
      (process_survey_response_details raw).length
        = ((raw.drop 1).filter fun r => decide (6 ≤ r.length)).length)
    ∧ (∀ (raw : List (List String)) (recs : List RatingRow),
        process_barrier_ratings raw = some recs → 1 < raw.length →
        recs.length = ((raw.drop 1).filter fun r => decide (3 ≤ r.length)).length)
    ∧ (∀ (raw pr : List (List String)) (recs : List EventRow),
        1 < raw.length → process_most_popular_events raw pr = some recs →
        recs.length = ((raw.drop 1).filter fun r => decide (3 ≤ r.length)).length)
    ∧ (∀ (raw : List (List String)) (recs : List AcresRow),
        process_acres_cleaned_timeline (fun _ => true) raw = some recs → 1 < raw.length →
        recs.length = ((raw.drop 1).filter fun r => decide (2 ≤ r.length)).length) := by
  refine ⟨?_, ?_, ?_, ?_, ?_, ?_⟩
  · intro raw h
    rw [process_volunteer_participation_trends, if_neg (by omega)]
    exact filterMap_len trend_row _ trend_row_isSome _
  · intro raw recs hp h
    rw [process_volunteer_satisfaction, if_neg (by omega)] at hp
    exact rows_of_len sat_row _ sat_row_skip_iff _ recs hp
  · intro raw h
    rw [process_survey_response_details, if_neg (by omega)]
    exact filterMap_len survey_row _ survey_row_isSome _
  · intro raw recs hp h
    rw [process_barrier_ratings, if_neg (by omega)] at hp
    exact rows_of_len rating_row _ rating_row_skip_iff _ recs hp
  · intro raw pr recs h hp
    rw [process_most_popular_events, if_pos h] at hp
    exact rows_of_len event_row _ event_row_skip_iff _ recs hp
  · intro raw recs hp h
    rw [process_acres_cleaned_timeline, if_neg (by omega)] at hp
    cases hb : acres_rows 0 (raw.drop 1) with
    | none => rw [hb] at hp; cases hp
    | some base =>
      rw [hb] at hp
      simp only [Option.map_some'] at hp
      obtain rfl : base.filter _ = recs := Option.some.inj hp
      rw [List.filter_true]
      exact acres_rows_len _ 0 base hb

/-- C10 witness: the amended theorem's participation clause applied to a
sheet with one wide and one narrow data row. -/
theorem C10_width_filter_amended_witness :
    1 < ([["h"], ["d", "E", "5", "6"], ["too", "short"]] : List (List String)).length
    ∧ (process_volunteer_participation_trends
          [["h"], ["d", "E", "5", "6"], ["too", "short"]]).length
        = ((([["h"], ["d", "E", "5", "6"], ["too", "short"]] : List (List String)).drop
              1).filter fun r => decide (4 ≤ r.length)).length :=
  ⟨by decide,
    C10_width_filter_amended.1 [["h"], ["d", "E", "5", "6"], ["too", "short"]] (by decide)⟩

/-- Name field of a kept popular-events record: the first cell of its row. -/
theorem event_row_keep_name (row : List String) (a : EventRow) (h : event_row row = .keep a) :
    a.event_name = py_or_empty (row.getD 0 "") := by
  rcases row with _ | ⟨x, _ | ⟨y, _ | ⟨z, rest⟩⟩⟩
  · cases h
  · cases h
  · cases h
  · rcases hc : coerce_float z with _ | ps <;> rw [event_row] at h <;> rw [hc] at h
    · cases h
    · obtain rfl : (⟨py_or_empty x, coerce_int y, ps⟩ : EventRow) = a := by
        injection h
      rfl

/-- Count field of a kept popular-events record: the int coercion of the
second cell of its row. -/
theorem event_row_keep_count (row : List String) (a : EventRow) (h : event_row row = .keep a) :
    a.total_participants = coerce_int (row.getD 1 "") := by
  rcases row with _ | ⟨x, _ | ⟨y, _ | ⟨z, rest⟩⟩⟩
  · cases h
  · cases h
  · cases h
  · rcases hc : coerce_float z with _ | ps <;> rw [event_row] at h <;> rw [hc] at h
    · cases h
    · obtain rfl : (⟨py_or_empty x, coerce_int y, ps⟩ : EventRow) = a := by
        injection h
      rfl

/-! Claim C3.  The claim says the table is always sorted descending by the
count column.  Only the fallback branch sorts (`nlargest`); the direct branch
(lines 92-102, taken whenever the `Most Popular Events` sheet has more than
one row) emits the qualifying data rows in sheet order with no sorting at
all. -/

/-- C3 counterexample: a popular-events sheet whose data rows carry counts
1 then 2 in that order produces a table whose count column is `[1, 2]` — not
sorted descending. -/
theorem C3_counterexample_direct_branch_unsorted :
    ¬ List.Sorted (fun a b => b ≤ a)
      (((process_most_popular_events [["E", "T", "P"], ["A", "1", "10"], ["B", "2", "20"]]
            []).getD []).map EventRow.total_participants) := by
  decide

/-- C3 amended: whenever the popular-events sheet has more than one row (the
direct branch), the returned table is the qualifying data rows in their
original sheet order — names and coerced counts column by column — with no
descending sort; ties therefore trivially keep their original order, but so
does everything else. -/
theorem C3_direct_branch_sheet_order_amended (raw pr : List (List String))
    (recs : List EventRow) (hlen : 1 < raw.length)
    (h : process_most_popular_events raw pr = some recs) :
    recs.map EventRow.event_name
        = ((raw.drop 1).filter fun r => decide (3 ≤ r.length)).map
            (fun row => py_or_empty (row.getD 0 ""))
    ∧ recs.map EventRow.total_participants
        = ((raw.drop 1).filter fun r => decide (3 ≤ r.length)).map
            (fun row => coerce_int (row.getD 1 "")) := by
  rw [process_most_popular_events, if_pos hlen] at h
  exact ⟨rows_of_proj event_row _ EventRow.event_name _ event_row_skip_iff
      event_row_keep_name _ recs h,
    rows_of_proj event_row _ EventRow.total_participants _ event_row_skip_iff
      event_row_keep_count _ recs h⟩

/-- C3 witness: the amended theorem applied to a concrete two-data-row
sheet. -/
theorem C3_direct_branch_sheet_order_amended_witness :
    ((process_most_popular_events [["E", "T", "P"], ["A", "1", "10"], ["B", "2", "20"]]
          []).getD []).map EventRow.event_name
        = ((([["E", "T", "P"], ["A", "1", "10"], ["B", "2", "20"]] :
              List (List String)).drop 1).filter fun r => decide (3 ≤ r.length)).map
            (fun row => py_or_empty (row.getD 0 ""))
    ∧ ((process_most_popular_events [["E", "T", "P"], ["A", "1", "10"], ["B", "2", "20"]]
          []).getD []).map EventRow.total_participants
        = ((([["E", "T", "P"], ["A", "1", "10"], ["B", "2", "20"]] :
              List (List String)).drop 1).filter fun r => decide (3 ≤ r.length)).map
            (fun row => coerce_int (row.getD 1 "")) :=
  C3_direct_branch_sheet_order_amended [["E", "T", "P"], ["A", "1", "10"], ["B", "2", "20"]]
    [] _ (by decide) rfl

/-! Claim C8.  Five of the six processing functions are pure functions of
their fetched raw rows (their embeddings take no ambient parameter because
their code reads no ambient state).  `process_acres_cleaned_timeline` is not:
lines 143-144 filter the table by `datetime.now() - timedelta(days=3*365)`,
so two runs on identical raw rows at different wall-clock times can differ.
In the counterexample below, the all-true window is the predicate obtained
when the clock reads any time within three years after 2024-01-01, and the
all-false window is the one obtained a decade later. -/

/-- C8 counterexample: the same raw rows, two realizable clock times, two
different outputs of `process_acres_cleaned_timeline`. -/
theorem C8_counterexample_acres_depends_on_time :
    process_acres_cleaned_timeline (fun _ => true) [["Date", "Acres"], ["2024-01-01", "2.0"]]
      ≠ process_acres_cleaned_timeline (fun _ => false)
          [["Date", "Acres"], ["2024-01-01", "2.0"]] := by
  decide

/-- C8 amended: every processing function except `process_acres_cleaned_timeline`
is a pure, stateless function of its fetched raw rows (their embeddings are
literally such functions); the acres function additionally depends on the
current time, but only through the three-year window filter: whether it
raises is time-independent, and its output at any time is the time-dependent
filter of the time-independent record list. -/
theorem C8_purity_amended (c : String → Bool) (raw : List (List String))
    (recs recsT : List AcresRow)
    (h : process_acres_cleaned_timeline c raw = some recs)
    (hT : process_acres_cleaned_timeline (fun _ => true) raw = some recsT) :
    recs = recsT.filter (fun r => c r.date)
    ∧ ∀ c' : String → Bool, (process_acres_cleaned_timeline c' raw).isSome := by
  by_cases hl : raw.length ≤ 1
  · rw [process_acres_cleaned_timeline, if_pos hl] at h hT
    obtain rfl : ([] : List AcresRow) = recs := Option.some.inj h
    obtain rfl : ([] : List AcresRow) = recsT := Option.some.inj hT
    exact ⟨rfl, fun c' => by rw [process_acres_cleaned_timeline, if_pos hl]; rfl⟩
  · rw [process_acres_cleaned_timeline, if_neg hl] at h hT
    cases hb : acres_rows 0 (raw.drop 1) with
    | none => rw [hb] at h; cases h
    | some base =>
      rw [hb] at h hT
      simp only [Option.map_some'] at h hT
      obtain rfl : base.filter _ = recs := Option.some.inj h
      obtain rfl : base.filter _ = recsT := Option.some.inj hT
      constructor
      · rw [List.filter_true]
      · intro c'
        rw [process_acres_cleaned_timeline, if_neg hl, hb]
        rfl

/-- C8 witness: the amended theorem applied to concrete rows, the all-false
window (a clock far in the future) against the all-true one. -/
theorem C8_purity_amended_witness :
    ((process_acres_cleaned_timeline (fun _ => false)
          [["Date", "Acres"], ["2024-01-01", "2.0"]]).getD [])
      = (((process_acres_cleaned_timeline (fun _ => true)
            [["Date", "Acres"], ["2024-01-01", "2.0"]]).getD []).filter
          fun r => (fun _ => false) r.date)
    ∧ ∀ c' : String → Bool,
        (process_acres_cleaned_timeline c' [["Date", "Acres"], ["2024-01-01", "2.0"]]).isSome :=
  C8_purity_amended (fun _ => false) [["Date", "Acres"], ["2024-01-01", "2.0"]] _ _ rfl rfl

/-- Participant-count field of a kept participation record: the int coercion
of the third cell of its row. -/
theorem trend_row_some_pc (row : List String) (a : TrendRow) (h : trend_row row = some a) :
    a.participant_count = coerce_int (row.getD 2 "") := by
  rcases row with _ | ⟨x, _ | ⟨y, _ | ⟨z, _ | ⟨w, rest⟩⟩⟩⟩
  · cases h
  · cases h
  · cases h
  · cases h
  · obtain rfl := Option.some.inj h
    rfl

/-- Total-count field of a kept participation record: the int coercion of the
fourth cell of its row. -/
theorem trend_row_some_tc (row : List String) (a : TrendRow) (h : trend_row row = some a) :
    a.total_count = coerce_int (row.getD 3 "") := by
  rcases row with _ | ⟨x, _ | ⟨y, _ | ⟨z, _ | ⟨w, rest⟩⟩⟩⟩
  · cases h
  · cases h
  · cases h
  · cases h
  · obtain rfl := Option.some.inj h
    rfl

/-- Shape of a successful `calculate_dashboard_metrics` run: the acres call
succeeded and the metrics are `metrics_of` applied to the three processed
tables. -/
theorem calculate_some_acres (in_window : String → Bool)
    (pr ar sr : List (List String)) (m : Metrics)
    (hm : calculate_dashboard_metrics in_window pr ar sr = some m) :
    ∃ a, process_acres_cleaned_timeline in_window ar = some a
      ∧ m = metrics_of (process_volunteer_participation_trends pr) a
          (process_survey_response_details sr) := by
  rw [calculate_dashboard_metrics] at hm
  cases ha : process_acres_cleaned_timeline in_window ar with
  | none => rw [ha] at hm; cases hm
  | some a =>
    rw [ha] at hm
    exact ⟨a, rfl, (Option.some.inj hm).symm⟩

/-! Claim C2.  On a well-formed participation sheet (every data row at least
4 cells wide, at least one data row) the `total_volunteers` and `total_hours`
metrics are exactly the arithmetic sums of the int-coerced third and fourth
cells of the data rows.  The date sort of lines 63-64 permutes the rows and
cannot change either sum. -/

/-- C2: for every well-formed participation sheet, the `total_volunteers`
metric equals the sum of the int-coerced `Participant Count` cells of all
data rows, and `total_hours` the sum of the int-coerced `Total Count`
cells. -/
theorem C2_participation_sums (in_window : String → Bool)
    (partRaw acresRaw surveyRaw : List (List String)) (m : Metrics)
    (hwf : ∀ row ∈ partRaw.drop 1, 4 ≤ row.length)
    (hlen : 1 < partRaw.length)
    (hm : calculate_dashboard_metrics in_window partRaw acresRaw surveyRaw = some m) :
    m.total_volunteers
        = some (((partRaw.drop 1).map fun row => coerce_int (row.getD 2 "")).sum)
    ∧ m.total_hours
        = some (((partRaw.drop 1).map fun row => coerce_int (row.getD 3 "")).sum) := by
  obtain ⟨a, ha, rfl⟩ := calculate_some_acres in_window partRaw acresRaw surveyRaw m hm
  have hp : process_volunteer_participation_trends partRaw
      = (partRaw.drop 1).filterMap trend_row := by
    rw [process_volunteer_participation_trends, if_neg (by omega)]
  have hfilter : (partRaw.drop 1).filter (fun r => decide (4 ≤ r.length)) = partRaw.drop 1 :=
    List.filter_eq_self.mpr (fun row hr => by simpa using hwf row hr)
  have hpc : (process_volunteer_participation_trends partRaw).map TrendRow.participant_count
      = (partRaw.drop 1).map fun row => coerce_int (row.getD 2 "") := by
    rw [hp, filterMap_proj trend_row (fun r => decide (4 ≤ r.length))
      TrendRow.participant_count (fun row => coerce_int (row.getD 2 ""))
      trend_row_isSome trend_row_some_pc, hfilter]
  have htc : (process_volunteer_participation_trends partRaw).map TrendRow.total_count
      = (partRaw.drop 1).map fun row => coerce_int (row.getD 3 "") := by
    rw [hp, filterMap_proj trend_row (fun r => decide (4 ≤ r.length))
      TrendRow.total_count (fun row => coerce_int (row.getD 3 ""))
      trend_row_isSome trend_row_some_tc, hfilter]
  have hne : (process_volunteer_participation_trends partRaw).isEmpty = false := by
    have hL := filterMap_len trend_row (fun r => decide (4 ≤ r.length))
      trend_row_isSome (partRaw.drop 1)
    rw [hfilter] at hL
    have hd : (partRaw.drop 1).length ≠ 0 := by
      rw [List.length_drop]; omega
    rw [hp]
    cases h0 : (partRaw.drop 1).filterMap trend_row with
    | nil => rw [h0] at hL; exact absurd hL.symm (by simpa using hd)
    | cons x xs => rfl
  constructor
  · show (metrics_of _ a _).total_volunteers = _
    simp only [metrics_of, hne, Bool.false_eq_true, if_false, Option.some.injEq]
    rw [hpc]
  · show (metrics_of _ a _).total_hours = _
    simp only [metrics_of, hne, Bool.false_eq_true, if_false, Option.some.injEq]
    rw [htc]

/-- C2 witness: the theorem applied to a concrete two-data-row sheet whose
counts are 5 and 2 and whose hours are 7 and 1. -/
theorem C2_participation_sums_witness :
    (metrics_of
        (process_volunteer_participation_trends
          [["h1", "h2", "h3", "h4"], ["d1", "A", "5", "7"], ["d2", "B", "2", "1"]])
        [] (process_survey_response_details [])).total_volunteers
      = some (((([["h1", "h2", "h3", "h4"], ["d1", "A", "5", "7"], ["d2", "B", "2", "1"]] :
            List (List String)).drop 1).map fun row => coerce_int (row.getD 2 "")).sum)
    ∧ (metrics_of
        (process_volunteer_participation_trends
          [["h1", "h2", "h3", "h4"], ["d1", "A", "5", "7"], ["d2", "B", "2", "1"]])
        [] (process_survey_response_details [])).total_hours
      = some (((([["h1", "h2", "h3", "h4"], ["d1", "A", "5", "7"], ["d2", "B", "2", "1"]] :
            List (List String)).drop 1).map fun row => coerce_int (row.getD 3 "")).sum) :=
  C2_participation_sums (fun _ => true)
    [["h1", "h2", "h3", "h4"], ["d1", "A", "5", "7"], ["d2", "B", "2", "1"]] [] [] _
    (by decide) (by decide) rfl

/-! Claim C7.  The `Cumulative Total` of each returned acres record is the
running sum, in sheet order, of the coerced `Acres Cleaned` values of that
record and of all earlier width-≥2 data rows (the running total of line 133
is accumulated before the window filter, so it ranges over all such rows,
including any the filter later drops); and `total_acres_cleaned` is the last
running total of the returned table (line 206, `iloc[-1]`). -/

/-- C7: every record of the returned acres table occurs at some position `i`
of the pre-window record list `base` with `Cumulative Total` equal to the sum
of the `Acres Cleaned` values of the first `i + 1` records of `base`; and
when the returned table is nonempty, the `total_acres_cleaned` metric is its
last record's `Cumulative Total`. -/
theorem C7_acres_running_totals (in_window : String → Bool) (raw : List (List String))
    (base recs : List AcresRow)
    (hbase : acres_rows 0 (raw.drop 1) = some base)
    (hrecs : process_acres_cleaned_timeline in_window raw = some recs)
    (hlen : 1 < raw.length) :
    (∀ r ∈ recs, ∃ i, base.get? i = some r
        ∧ r.cumulative_total = ((base.take (i + 1)).map AcresRow.acres_cleaned).sum)
    ∧ (∀ (partRaw surveyRaw : List (List String)) (m : Metrics),
        calculate_dashboard_metrics in_window partRaw raw surveyRaw = some m →
        recs ≠ [] →
        m.total_acres_cleaned = (recs.getLast?).map AcresRow.cumulative_total) := by
  have hrecs' : recs = base.filter (fun r => in_window r.date) := by
    rw [process_acres_cleaned_timeline, if_neg (by omega), hbase] at hrecs
    simp only [Option.map_some'] at hrecs
    exact (Option.some.inj hrecs).symm
  constructor
  · intro r hr
    have hrb : r ∈ base := by
      rw [hrecs'] at hr
      exact List.mem_of_mem_filter hr
    obtain ⟨i, hi⟩ := List.get?_of_mem hrb
    refine ⟨i, hi, ?_⟩
    have := acres_rows_cumulative (raw.drop 1) 0 base hbase i r hi
    rwa [zero_add] at this
  · intro partRaw surveyRaw m hm hne
    obtain ⟨b, hb, rfl⟩ := calculate_some_acres in_window partRaw raw surveyRaw m hm
    have hbr : b = recs := Option.some.inj (hb.symm.trans hrecs)
    subst hbr
    have hie : b.isEmpty = false := by
      rcases b with _ | ⟨x, xs⟩
      · exact absurd rfl hne
      · rfl
    rcases hl : b.getLast? with _ | l
    · exact absurd ((List.getLast?_eq_none_iff).mp hl) hne
    · simp [metrics_of, hie, hl]

/-- C7 witness: the theorem applied to a concrete sheet with two data rows of
acreage 3 and 4 and an all-true window. -/
theorem C7_acres_running_totals_witness :
    (∀ r ∈ (process_acres_cleaned_timeline (fun _ => true)
        [["Date", "Acres"], ["2099-01-01", "3"], ["2099-02-01", "4"]]).getD [],
      ∃ i, ((acres_rows 0 ([["Date", "Acres"], ["2099-01-01", "3"],
            ["2099-02-01", "4"]].drop 1)).getD []).get? i = some r
        ∧ r.cumulative_total
            = ((((acres_rows 0 ([["Date", "Acres"], ["2099-01-01", "3"],
                ["2099-02-01", "4"]].drop 1)).getD []).take (i + 1)).map
                AcresRow.acres_cleaned).sum)
    ∧ (∀ (partRaw surveyRaw : List (List String)) (m : Metrics),
        calculate_dashboard_metrics (fun _ => true) partRaw
            [["Date", "Acres"], ["2099-01-01", "3"], ["2099-02-01", "4"]] surveyRaw
          = some m →
        (process_acres_cleaned_timeline (fun _ => true)
            [["Date", "Acres"], ["2099-01-01", "3"], ["2099-02-01", "4"]]).getD [] ≠ [] →
        m.total_acres_cleaned
          = (((process_acres_cleaned_timeline (fun _ => true)
                [["Date", "Acres"], ["2099-01-01", "3"],
                  ["2099-02-01", "4"]]).getD []).getLast?).map AcresRow.cumulative_total) :=
  C7_acres_running_totals (fun _ => true)
    [["Date", "Acres"], ["2099-01-01", "3"], ["2099-02-01", "4"]] _ _ rfl rfl (by decide)

/-! Claim C9.  Line 207 sets `percent_forest_reached` to
`min(100, total_acres_cleaned / 4000 * 100)`, so whenever the metric is
present it is that expression and in particular never exceeds 100. -/

/-- C9: whenever the metrics dict holds `total_acres_cleaned = t`, its
`percent_forest_reached` equals `min 100 (t / 4000 * 100)`, and any value the
key holds is at most 100. -/
theorem C9_percent_forest_capped (in_window : String → Bool)
    (pr ar sr : List (List String)) (m : Metrics) (t : ℚ)
    (hm : calculate_dashboard_metrics in_window pr ar sr = some m)
    (ht : m.total_acres_cleaned = some t) :
    m.percent_forest_reached = some (min 100 (t / 4000 * 100))
    ∧ ∀ q : ℚ, m.percent_forest_reached = some q → q ≤ 100 := by
  obtain ⟨a, ha, rfl⟩ := calculate_some_acres in_window pr ar sr m hm
  cases hia' : a.isEmpty with
  | true =>
    exfalso
    have hnone : (metrics_of (process_volunteer_participation_trends pr) a
        (process_survey_response_details sr)).total_acres_cleaned = none := by
      simp [metrics_of, hia']
    rw [hnone] at ht
    cases ht
  | false =>
    simp only [metrics_of, hia', Bool.false_eq_true, if_false, Option.some.injEq] at ht
    constructor
    · simp only [metrics_of, hia', Bool.false_eq_true, if_false, Option.map_some',
        Option.some.injEq]
      rw [ht]
    · intro q hq
      simp only [metrics_of, hia', Bool.false_eq_true, if_false, Option.map_some',
        Option.some.injEq] at hq
      rw [← hq]
      exact min_le_left _ _

/-- C9 witness: the theorem applied to a concrete one-data-row acres
sheet. -/
theorem C9_percent_forest_capped_witness :
    (metrics_of (process_volunteer_participation_trends [])
        ((process_acres_cleaned_timeline (fun _ => true)
          [["Date", "Acres"], ["2099-01-01", "3"]]).getD [])
        (process_survey_response_details [])).percent_forest_reached
      = some (min 100
          (((metrics_of (process_volunteer_participation_trends [])
              ((process_acres_cleaned_timeline (fun _ => true)
                [["Date", "Acres"], ["2099-01-01", "3"]]).getD [])
              (process_survey_response_details [])).total_acres_cleaned).getD 0 / 4000 * 100))
    ∧ ∀ q : ℚ,
        (metrics_of (process_volunteer_participation_trends [])
          ((process_acres_cleaned_timeline (fun _ => true)
            [["Date", "Acres"], ["2099-01-01", "3"]]).getD [])
          (process_survey_response_details [])).percent_forest_reached = some q → q ≤ 100 :=
  C9_percent_forest_capped (fun _ => true) [] [["Date", "Acres"], ["2099-01-01", "3"]] [] _ _
    rfl rfl

end ShelbyDashboard
